import Mathlib

/-!
# BLERemoteDescriptor

A shallow embedding of `src/BLERemoteDescriptor.cpp` (the client-side object that
exposes a remote GATT descriptor through blocking `readValue` / `writeValue`
calls) together with the properties stated about it.

Conventions of the embedding

* `std::string` values are lists of bytes (`List UInt8`); a byte's unsigned value
  is `UInt8.toNat`.
* `uint16_t` / `size_t` quantities (handles, lengths, identifiers) are natural
  numbers.  The file performs no arithmetic on them; the one place where a value
  changes width is the call of `esp_ble_gattc_write_char_descr`, whose
  `uint16_t value_len` parameter receives the `size_t length` of `writeValue`
  reduced modulo 65536.
* `this` is the record `BLERemoteDescriptor`; the calls a member function makes on
  its collaborators (the semaphore and the ESP-IDF transport) are appended to a
  log carried next to it in `Sys`, so that "no request was issued" and "the
  semaphore was given once" are statements about the log.
* The calling task and the task that dispatches GATT client events run
  concurrently.  A member function that blocks on the semaphore is given the
  list of events the transport dispatches to this descriptor while the caller is
  suspended; the events are handed to `gattClientEventHandler` one at a time, in
  order, until the semaphore is free.  When the list is exhausted and the
  semaphore is still taken the caller stays suspended: the outcome is `blocked`.
  An event that arrives while no call is in progress is a call of
  `gattClientEventHandler` on the state (see `Op`).
* Logging (`ESP_LOGD`, `ESP_LOGE`) has no effect on the state and is left out.
-/

/-! ## ESP-IDF types used by the file -/

/-- The kinds of GATT client event (`esp_gattc_cb_event_t`).  The two kinds the
handler has a `case` for are named, as is the connection-loss event; every other
enumerator is `other code`. -/
inductive esp_gattc_cb_event_t where
  | ESP_GATTC_READ_DESCR_EVT
  | ESP_GATTC_WRITE_DESCR_EVT
  | ESP_GATTC_DISCONNECT_EVT
  | other (code : Nat)
  deriving DecidableEq

/-- The status `esp_gatt_status_t` of a completed GATT operation, as its numeric code. -/
abbrev esp_gatt_status_t := Nat

/-- The success status. -/
def ESP_GATT_OK : esp_gatt_status_t := 0

/-- The result `esp_err_t` of a call into ESP-IDF, as its numeric code. -/
abbrev esp_err_t := Int

/-- The success result. -/
def ESP_OK : esp_err_t := 0

/-- The write modes `esp_gatt_write_type_t`. -/
inductive esp_gatt_write_type_t where
  | ESP_GATT_WRITE_TYPE_NO_RSP
  | ESP_GATT_WRITE_TYPE_RSP
  deriving DecidableEq

/-- The authentication requests `esp_gatt_auth_req_t`; the file only uses `NONE`. -/
inductive esp_gatt_auth_req_t where
  | ESP_GATT_AUTH_REQ_NONE
  | other (code : Nat)
  deriving DecidableEq

/-- The member `read` of `esp_ble_gattc_cb_param_t`.  `value` is the buffer the
pointer refers to and `value_len` the number of bytes the transport says it holds. -/
structure gattc_read_evt_param where
  status : esp_gatt_status_t
  conn_id : Nat
  handle : Nat
  value : List UInt8
  value_len : Nat
  deriving DecidableEq

/-- The member `write` of `esp_ble_gattc_cb_param_t`. -/
structure gattc_write_evt_param where
  status : esp_gatt_status_t
  conn_id : Nat
  handle : Nat
  deriving DecidableEq

/-- The event parameter `esp_ble_gattc_cb_param_t`; the handler looks at member
`read` for a read-completion event and at member `write` for a write-completion
event. -/
structure esp_ble_gattc_cb_param_t where
  read : gattc_read_evt_param
  write : gattc_write_evt_param
  deriving DecidableEq

/-- One dispatch of the transport to `gattClientEventHandler`: its three arguments. -/
structure GattcEvent where
  event : esp_gattc_cb_event_t
  gattc_if : Nat
  evtParam : esp_ble_gattc_cb_param_t
  deriving DecidableEq

/-! ## Collaborators -/

/-- The UUID of the descriptor; only its string form is used by this file. -/
structure BLEUUID where
  str : String
  deriving DecidableEq

/-- The string form `BLEUUID::toString()`. -/
def BLEUUID.toString (u : BLEUUID) : String := u.str

/-- The client reached through
`getRemoteCharacteristic()->getRemoteService()->getClient()` at the time of a
call: its connection status, GATT interface and connection identifier. -/
structure BLEClient where
  m_isConnected : Bool
  m_gattc_if : Nat
  m_conn_id : Nat
  deriving DecidableEq

/-- The accessor `BLEClient::isConnected()`. -/
def BLEClient.isConnected (c : BLEClient) : Bool := c.m_isConnected

/-- The accessor `BLEClient::getGattcIf()`. -/
def BLEClient.getGattcIf (c : BLEClient) : Nat := c.m_gattc_if

/-- The accessor `BLEClient::getConnId()`. -/
def BLEClient.getConnId (c : BLEClient) : Nat := c.m_conn_id

/-- Modelled from the spec: the class `FreeRTOS::Semaphore` behind
`m_semaphoreReadDescrEvt`, which is declared outside `BLERemoteDescriptor.cpp`.
The spec describes a binary (not counting) handshake: `take` acquires the single
ticket for the pending read, `give` is the signal that releases it, and `wait`
blocks until the signal has occurred, returning at once when the signal came
first.  The state is therefore one bit: whether the ticket is held. -/
structure Semaphore where
  taken : Bool
  deriving DecidableEq

/-- Modelled from the spec: `take` acquires the ticket (the caller may only get
here once the ticket is free, see `suspend`). -/
def Semaphore.take (_s : Semaphore) : Semaphore := { taken := true }

/-- Modelled from the spec: `give` is the signal; it releases the ticket, and a
second signal does not accumulate. -/
def Semaphore.give (_s : Semaphore) : Semaphore := { taken := false }

/-- Modelled from the spec: `wait` returns once the signal has occurred and
leaves the ticket free (the caller may only get here once the ticket is free). -/
def Semaphore.wait (_s : Semaphore) : Semaphore := { taken := false }

/-- The calls a member function makes on its collaborators.  A semaphore call is
logged when it returns, a transport call when it is issued, with the argument
values the callee receives. -/
inductive Call where
  | semaphoreTake (owner : String)
  | semaphoreGive
  | semaphoreWait (owner : String)
  | esp_ble_gattc_read_char_descr (gattc_if conn_id handle : Nat)
      (auth_req : esp_gatt_auth_req_t)
  | esp_ble_gattc_write_char_descr (gattc_if conn_id handle : Nat) (value_len : Nat)
      (value : List UInt8) (write_type : esp_gatt_write_type_t)
      (auth_req : esp_gatt_auth_req_t)
  deriving DecidableEq

/-! ## The descriptor -/

/-- The data members of `BLERemoteDescriptor`.  `m_pRemoteCharacteristic` is the
address of the owning characteristic, which this file never writes through. -/
structure BLERemoteDescriptor where
  m_handle : Nat
  m_uuid : BLEUUID
  m_pRemoteCharacteristic : Nat
  m_value : List UInt8
  m_semaphoreReadDescrEvt : Semaphore
  deriving DecidableEq

/-- The constructor: stores its three arguments; `m_value` starts empty and the
semaphore starts free. -/
def BLERemoteDescriptor.new (handle : Nat) (uuid : BLEUUID) (pRemoteCharacteristic : Nat) :
    BLERemoteDescriptor :=
  { m_handle := handle
    m_uuid := uuid
    m_pRemoteCharacteristic := pRemoteCharacteristic
    m_value := []
    m_semaphoreReadDescrEvt := { taken := false } }

/-- The accessor `getHandle()`. -/
def BLERemoteDescriptor.getHandle (d : BLERemoteDescriptor) : Nat := d.m_handle

/-- The accessor `getRemoteCharacteristic()`. -/
def BLERemoteDescriptor.getRemoteCharacteristic (d : BLERemoteDescriptor) : Nat :=
  d.m_pRemoteCharacteristic

/-- The accessor `getUUID()`. -/
def BLERemoteDescriptor.getUUID (d : BLERemoteDescriptor) : BLEUUID := d.m_uuid

/-- The diagnostic form `toString()`: `"handle: <n>, uuid: <uuid-string>"`. -/
def BLERemoteDescriptor.toString (d : BLERemoteDescriptor) : String :=
  "handle: " ++ Nat.repr d.getHandle ++ ", uuid: " ++ d.getUUID.toString

/-- The descriptor together with the log of the calls made on its collaborators
(oldest first). -/
structure Sys where
  desc : BLERemoteDescriptor
  calls : List Call
  deriving DecidableEq

/-- The event handler `gattClientEventHandler(event, gattc_if, evtParam)`. -/
def BLERemoteDescriptor.gattClientEventHandler (event : esp_gattc_cb_event_t) (_gattc_if : Nat)
    (evtParam : esp_ble_gattc_cb_param_t) (s : Sys) : Sys :=
  match event with
  | .ESP_GATTC_READ_DESCR_EVT =>
    -- If this event is not for us, then nothing further to do.
    if evtParam.read.handle != s.desc.getHandle then s
    else
      -- m_value = std::string((char* )value, value_len)   or   m_value = ""
      let d1 : BLERemoteDescriptor :=
        if evtParam.read.status == ESP_GATT_OK then
          { s.desc with m_value := evtParam.read.value.take evtParam.read.value_len }
        else
          { s.desc with m_value := [] }
      -- m_semaphoreReadDescrEvt.give()
      { desc := { d1 with m_semaphoreReadDescrEvt := d1.m_semaphoreReadDescrEvt.give }
        calls := s.calls ++ [Call.semaphoreGive] }
  | .ESP_GATTC_WRITE_DESCR_EVT =>
    if evtParam.write.handle != s.desc.getHandle then s
    else s
  | _ => s

/-! ## Blocking calls -/

/-- Hand one dispatched event to the handler. -/
def deliver (e : GattcEvent) (s : Sys) : Sys :=
  BLERemoteDescriptor.gattClientEventHandler e.event e.gattc_if e.evtParam s

/-- The caller is suspended on `m_semaphoreReadDescrEvt` (inside `take` or
`wait`): while the semaphore is taken the next dispatched event is handed to the
handler.  The result is the state in which the caller resumes (semaphore free)
or, when the events are exhausted with the semaphore still taken, the state in
which it stays suspended; the second component holds the events not yet
dispatched. -/
def suspend : List GattcEvent → Sys → Sys × List GattcEvent
  | [], s => (s, [])
  | e :: rest, s =>
    if s.desc.m_semaphoreReadDescrEvt.taken then suspend rest (deliver e s)
    else (s, e :: rest)

/-- The exceptions thrown by the file. -/
inductive BLEException where
  | BLEDisconnectedException
  deriving DecidableEq

/-- The semaphore call in which a caller is suspended. -/
inductive BlockPoint where
  | inTake
  | inWait
  deriving DecidableEq

/-- A read outside the bytes of a `std::string`, at the given index. -/
inductive Fault where
  | outOfBounds (index : Nat)
  deriving DecidableEq

/-- How a call of a member function ends: it returns a value, throws, stays
suspended on the semaphore, or reads outside a buffer. -/
inductive Outcome (α : Type) where
  | returned (v : α)
  | threw (e : BLEException)
  | blocked (p : BlockPoint)
  | fault (f : Fault)
  deriving DecidableEq

/-- The result of running a member function: the outcome, the state it leaves and
the events not yet dispatched. -/
structure Run (α : Type) where
  outcome : Outcome α
  sys : Sys
  pending : List GattcEvent

/-- The member function `readValue()`.  `client` is the client reached through
the owning characteristic, `errRc` the result of the transport call
`esp_ble_gattc_read_char_descr` and `events` the events dispatched while the
caller is suspended. -/
def BLERemoteDescriptor.readValue (client : BLEClient) (errRc : esp_err_t)
    (events : List GattcEvent) (s : Sys) : Run (List UInt8) :=
  -- Check to see that we are connected.
  if !client.isConnected then
    { outcome := .threw .BLEDisconnectedException, sys := s, pending := events }
  else
    -- m_semaphoreReadDescrEvt.take("readValue")
    let t := suspend events s
    if t.1.desc.m_semaphoreReadDescrEvt.taken then
      { outcome := .blocked .inTake, sys := t.1, pending := t.2 }
    else
      let s1 : Sys :=
        { desc := { t.1.desc with
                    m_semaphoreReadDescrEvt := t.1.desc.m_semaphoreReadDescrEvt.take }
          calls := t.1.calls ++ [Call.semaphoreTake "readValue"] }
      -- errRc = ::esp_ble_gattc_read_char_descr(gattc_if, conn_id, getHandle(), AUTH_REQ_NONE)
      let s2 : Sys :=
        { s1 with
          calls := s1.calls ++
            [Call.esp_ble_gattc_read_char_descr client.getGattcIf client.getConnId
              s1.desc.getHandle .ESP_GATT_AUTH_REQ_NONE] }
      if errRc != ESP_OK then
        { outcome := .returned [], sys := s2, pending := t.2 }
      else
        -- m_semaphoreReadDescrEvt.wait("readValue")
        let w := suspend t.2 s2
        if w.1.desc.m_semaphoreReadDescrEvt.taken then
          { outcome := .blocked .inWait, sys := w.1, pending := w.2 }
        else
          let s3 : Sys :=
            { desc := { w.1.desc with
                        m_semaphoreReadDescrEvt := w.1.desc.m_semaphoreReadDescrEvt.wait }
              calls := w.1.calls ++ [Call.semaphoreWait "readValue"] }
          { outcome := .returned s3.desc.m_value, sys := s3, pending := w.2 }

/-! ## Decoding the value -/

/-- The byte `value[i]` of a `std::string` as an unsigned number; an index at or
past `value.length()` is outside the stored bytes. -/
def loadByte (value : List UInt8) (i : Nat) : Except Fault Nat :=
  match value[i]? with
  | some b => .ok b.toNat
  | none => .error (.outOfBounds i)

/-- The load `*(uint16_t* )(value.data())` on the little-endian ESP32: bytes 0 and 1. -/
def loadUInt16 (value : List UInt8) : Except Fault Nat := do
  let b0 ← loadByte value 0
  let b1 ← loadByte value 1
  pure (b0 + 256 * b1)

/-- The load `*(uint32_t* )(value.data())` on the little-endian ESP32: bytes 0 to 3. -/
def loadUInt32 (value : List UInt8) : Except Fault Nat := do
  let b0 ← loadByte value 0
  let b1 ← loadByte value 1
  let b2 ← loadByte value 2
  let b3 ← loadByte value 3
  pure (b0 + 256 * b1 + 65536 * b2 + 16777216 * b3)

/-- Turn the result of a load into the outcome of the member function. -/
def Outcome.ofLoad (r : Except Fault Nat) : Outcome Nat :=
  match r with
  | .ok n => .returned n
  | .error f => .fault f

/-- The statements of `readUInt8` after `std::string value = readValue();`. -/
def decodeUInt8 (value : List UInt8) : Outcome Nat :=
  if value.length >= 1 then Outcome.ofLoad (loadByte value 0)
  else .returned 0

/-- The statements of `readUInt16` after `std::string value = readValue();`. -/
def decodeUInt16 (value : List UInt8) : Outcome Nat :=
  if value.length >= 2 then Outcome.ofLoad (loadUInt16 value)
  else .returned 0

/-- The statements of `readUInt32` after `std::string value = readValue();`. -/
def decodeUInt32 (value : List UInt8) : Outcome Nat :=
  if value.length >= 4 then Outcome.ofLoad (loadUInt32 value)
  else .returned 0

/-- Continue a member function after its call of `readValue()`: an exception or a
suspension of the inner call is that of the outer one. -/
def Run.andThen (r : Run (List UInt8)) (k : List UInt8 → Outcome Nat) : Run Nat :=
  match r.outcome with
  | .returned value => { outcome := k value, sys := r.sys, pending := r.pending }
  | .threw e => { outcome := .threw e, sys := r.sys, pending := r.pending }
  | .blocked p => { outcome := .blocked p, sys := r.sys, pending := r.pending }
  | .fault f => { outcome := .fault f, sys := r.sys, pending := r.pending }

/-- The member function `readUInt8()`. -/
def BLERemoteDescriptor.readUInt8 (client : BLEClient) (errRc : esp_err_t)
    (events : List GattcEvent) (s : Sys) : Run Nat :=
  (BLERemoteDescriptor.readValue client errRc events s).andThen decodeUInt8

/-- The member function `readUInt16()`. -/
def BLERemoteDescriptor.readUInt16 (client : BLEClient) (errRc : esp_err_t)
    (events : List GattcEvent) (s : Sys) : Run Nat :=
  (BLERemoteDescriptor.readValue client errRc events s).andThen decodeUInt16

/-- The member function `readUInt32()`. -/
def BLERemoteDescriptor.readUInt32 (client : BLEClient) (errRc : esp_err_t)
    (events : List GattcEvent) (s : Sys) : Run Nat :=
  (BLERemoteDescriptor.readValue client errRc events s).andThen decodeUInt32

/-! ## Writing -/

/-- The member function `writeValue(uint8_t* data, size_t length, bool response)`.
`data` is the buffer behind the pointer and `errRc` the result of the transport
call `esp_ble_gattc_write_char_descr`, which is only logged.  The transport
declares its length parameter as `uint16_t value_len`, so the `size_t length`
is converted at the call: the request carries `length % 65536`. -/
def BLERemoteDescriptor.writeValue (client : BLEClient) (errRc : esp_err_t)
    (data : List UInt8) (length : Nat) (_response : Bool) (s : Sys) : Outcome Unit × Sys :=
  -- Check to see that we are connected.
  if !client.isConnected then (.threw .BLEDisconnectedException, s)
  else
    let s1 : Sys :=
      { s with
        calls := s.calls ++
          [Call.esp_ble_gattc_write_char_descr client.getGattcIf client.getConnId
            s.desc.getHandle (length % 65536) data .ESP_GATT_WRITE_TYPE_NO_RSP
            .ESP_GATT_AUTH_REQ_NONE] }
    -- if (errRc != ESP_OK) the result is logged and nothing else happens
    if errRc != ESP_OK then (.returned (), s1)
    else (.returned (), s1)

/-- The conversion `std::string(const char* )` applied to `newValue.data()`: the
bytes up to the first zero byte. -/
def stringOfCStr (bytes : List UInt8) : List UInt8 := bytes.takeWhile (fun b => b != 0)

/-- The overload `writeValue(std::string newValue, bool response)`.  Its body is the
call `writeValue(newValue.data(), newValue.length())`.  The first argument is a
`const char*`, which converts neither to `uint8_t*` nor to `uint8_t`, so the call
binds to this same overload: the pointer becomes a `std::string` and the length a
`bool`.  The function therefore calls itself and does nothing else.  `fuel`
bounds the depth of the recursion that is followed; the first component is `none`
when the call has not returned within that depth. -/
def BLERemoteDescriptor.writeValueString :
    Nat → List UInt8 → Bool → Sys → Option (Outcome Unit) × Sys
  | 0, _, _, s => (none, s)
  | fuel + 1, newValue, _response, s =>
    BLERemoteDescriptor.writeValueString fuel (stringOfCStr newValue) (newValue.length != 0) s

/-- The overload `writeValue(uint8_t newValue, bool response)`: it calls
`writeValue(&newValue, 1, response)`. -/
def BLERemoteDescriptor.writeValueByte (client : BLEClient) (errRc : esp_err_t)
    (newValue : UInt8) (response : Bool) (s : Sys) : Outcome Unit × Sys :=
  BLERemoteDescriptor.writeValue client errRc [newValue] 1 response s

/-! ## Sequences of operations -/

/-- One operation on a descriptor, with the inputs it receives from its caller
and from its collaborators. -/
inductive Op where
  | readValue (client : BLEClient) (errRc : esp_err_t) (events : List GattcEvent)
  | readUInt8 (client : BLEClient) (errRc : esp_err_t) (events : List GattcEvent)
  | readUInt16 (client : BLEClient) (errRc : esp_err_t) (events : List GattcEvent)
  | readUInt32 (client : BLEClient) (errRc : esp_err_t) (events : List GattcEvent)
  | writeValue (client : BLEClient) (errRc : esp_err_t) (data : List UInt8) (length : Nat)
      (response : Bool)
  | writeValueString (fuel : Nat) (newValue : List UInt8) (response : Bool)
  | writeValueByte (client : BLEClient) (errRc : esp_err_t) (newValue : UInt8)
      (response : Bool)
  | toString
  | gattClientEventHandler (event : esp_gattc_cb_event_t) (gattc_if : Nat)
      (evtParam : esp_ble_gattc_cb_param_t)

/-- The state an operation leaves, whether it returns, throws, stays suspended or
is still recursing. -/
def Op.apply (op : Op) (s : Sys) : Sys :=
  match op with
  | .readValue client errRc events => (BLERemoteDescriptor.readValue client errRc events s).sys
  | .readUInt8 client errRc events => (BLERemoteDescriptor.readUInt8 client errRc events s).sys
  | .readUInt16 client errRc events =>
    (BLERemoteDescriptor.readUInt16 client errRc events s).sys
  | .readUInt32 client errRc events =>
    (BLERemoteDescriptor.readUInt32 client errRc events s).sys
  | .writeValue client errRc data length response =>
    (BLERemoteDescriptor.writeValue client errRc data length response s).2
  | .writeValueString fuel newValue response =>
    (BLERemoteDescriptor.writeValueString fuel newValue response s).2
  | .writeValueByte client errRc newValue response =>
    (BLERemoteDescriptor.writeValueByte client errRc newValue response s).2
  | .toString => s
  | .gattClientEventHandler event gattc_if evtParam =>
    BLERemoteDescriptor.gattClientEventHandler event gattc_if evtParam s

/-- Run a finite sequence of operations, first to last. -/
def runOps (ops : List Op) (s : Sys) : Sys := ops.foldl (fun acc op => op.apply acc) s

/-- The three members set by the constructor agree in two descriptors. -/
def sameIdentity (a b : BLERemoteDescriptor) : Prop :=
  a.getHandle = b.getHandle ∧ a.getUUID = b.getUUID ∧
    a.getRemoteCharacteristic = b.getRemoteCharacteristic

/-- The state right after `readValue()` has taken the semaphore in state `t` and
issued the read request: the state in which the caller is suspended in `wait`. -/
def issued (client : BLEClient) (t : Sys) : Sys :=
  { desc := { t.desc with m_semaphoreReadDescrEvt := { taken := true } }
    calls := t.calls ++
      [Call.semaphoreTake "readValue",
       Call.esp_ble_gattc_read_char_descr client.getGattcIf client.getConnId
         t.desc.getHandle .ESP_GATT_AUTH_REQ_NONE] }

/-- Whether a dispatched event is a read-completion event tagged with handle `h`. -/
def GattcEvent.isReadCompletionFor (e : GattcEvent) (h : Nat) : Bool :=
  e.event == esp_gattc_cb_event_t.ESP_GATTC_READ_DESCR_EVT && e.evtParam.read.handle == h

/-- The read-completion event for handle `h` with the given status and payload `B`. -/
def readCompletion (gattc_if conn_id h : Nat) (status : esp_gatt_status_t) (B : List UInt8)
    (w : gattc_write_evt_param) : GattcEvent :=
  { event := .ESP_GATTC_READ_DESCR_EVT
    gattc_if := gattc_if
    evtParam :=
      { read := { status := status, conn_id := conn_id, handle := h, value := B,
                  value_len := B.length }
        write := w } }

/-! ## Concrete data used in the examples -/

/-- A connected client. -/
def exampleClient : BLEClient := { m_isConnected := true, m_gattc_if := 3, m_conn_id := 0 }

/-- The same client after the connection was lost. -/
def exampleClientDown : BLEClient := { m_isConnected := false, m_gattc_if := 3, m_conn_id := 0 }

/-- A freshly constructed Client Characteristic Configuration descriptor with handle 42. -/
def exampleSys : Sys :=
  { desc := BLERemoteDescriptor.new 42 { str := "00002902-0000-1000-8000-00805f9b34fb" } 7
    calls := [] }

/-- Event parameters whose members are all zero except the two handles. -/
def exampleParam (readHandle writeHandle : Nat) : esp_ble_gattc_cb_param_t :=
  { read := { status := 0, conn_id := 0, handle := readHandle, value := [], value_len := 0 }
    write := { status := 0, conn_id := 0, handle := writeHandle } }

/-- A connection-loss event. -/
def exampleDisconnect : GattcEvent :=
  { event := .ESP_GATTC_DISCONNECT_EVT, gattc_if := 3, evtParam := exampleParam 0 0 }

/-- A write-completion event for handle 42. -/
def exampleWriteDone : GattcEvent :=
  { event := .ESP_GATTC_WRITE_DESCR_EVT, gattc_if := 3, evtParam := exampleParam 0 42 }

/-- The result `ESP_FAIL` of a rejected transport call. -/
def ESP_FAIL : esp_err_t := -1

/-! ## Auxiliary facts -/

theorem handler_getHandle (event : esp_gattc_cb_event_t) (g : Nat)
    (p : esp_ble_gattc_cb_param_t) (s : Sys) :
    (BLERemoteDescriptor.gattClientEventHandler event g p s).desc.getHandle
      = s.desc.getHandle := by
  unfold BLERemoteDescriptor.gattClientEventHandler
  cases event <;> simp only [ite_self]
  split
  · rfl
  · split <;> rfl

theorem deliver_of_not_readCompletion (e : GattcEvent) (s : Sys)
    (h : e.isReadCompletionFor s.desc.getHandle = false) : deliver e s = s := by
  obtain ⟨ev, g, p⟩ := e
  unfold deliver BLERemoteDescriptor.gattClientEventHandler
  cases ev <;> simp_all [GattcEvent.isReadCompletionFor]

theorem suspend_getHandle (events : List GattcEvent) (s : Sys) :
    (suspend events s).1.desc.getHandle = s.desc.getHandle := by
  induction events generalizing s with
  | nil => rfl
  | cons e rest ih =>
    unfold suspend
    split
    · rw [ih]; exact handler_getHandle _ _ _ _
    · rfl

theorem suspend_of_free (events : List GattcEvent) (s : Sys)
    (h : s.desc.m_semaphoreReadDescrEvt.taken = false) : suspend events s = (s, events) := by
  cases events with
  | nil => rfl
  | cons e rest => simp [suspend, h]

theorem suspend_skip (pre post : List GattcEvent) (s : Sys)
    (htaken : s.desc.m_semaphoreReadDescrEvt.taken = true)
    (hpre : ∀ e ∈ pre, e.isReadCompletionFor s.desc.getHandle = false) :
    suspend (pre ++ post) s = suspend post s := by
  induction pre with
  | nil => rfl
  | cons e rest ih =>
    have he : deliver e s = s :=
      deliver_of_not_readCompletion e s (hpre e (List.mem_cons_self _ _))
    simp only [List.cons_append, suspend, htaken, if_true, he]
    exact ih (fun x hx => hpre x (List.mem_cons_of_mem _ hx))

theorem readValue_after_take (client : BLEClient) (events post : List GattcEvent) (s t : Sys)
    (hconn : client.isConnected = true)
    (htake : suspend events s = (t, post))
    (hfree : t.desc.m_semaphoreReadDescrEvt.taken = false) :
    BLERemoteDescriptor.readValue client ESP_OK events s =
      if (suspend post (issued client t)).1.desc.m_semaphoreReadDescrEvt.taken then
        { outcome := .blocked .inWait
          sys := (suspend post (issued client t)).1
          pending := (suspend post (issued client t)).2 }
      else
        { outcome := .returned (suspend post (issued client t)).1.desc.m_value
          sys :=
            { desc := { (suspend post (issued client t)).1.desc with
                        m_semaphoreReadDescrEvt := { taken := false } }
              calls := (suspend post (issued client t)).1.calls ++
                [Call.semaphoreWait "readValue"] }
          pending := (suspend post (issued client t)).2 } := by
  simp [BLERemoteDescriptor.readValue, hconn, htake, hfree, issued, Semaphore.take,
    Semaphore.wait, BLERemoteDescriptor.getHandle]

theorem suspend_readCompletion (gattc_if conn_id : Nat) (status : esp_gatt_status_t)
    (B : List UInt8) (w : gattc_write_evt_param) (rest : List GattcEvent) (u : Sys)
    (htaken : u.desc.m_semaphoreReadDescrEvt.taken = true) :
    suspend (readCompletion gattc_if conn_id u.desc.getHandle status B w :: rest) u =
      ({ desc := { u.desc with
                   m_value := if status = ESP_GATT_OK then B else []
                   m_semaphoreReadDescrEvt := { taken := false } }
         calls := u.calls ++ [Call.semaphoreGive] }, rest) := by
  unfold suspend
  rw [if_pos htaken]
  rw [suspend_of_free]
  · by_cases hst : status = ESP_GATT_OK <;>
      simp [deliver, BLERemoteDescriptor.gattClientEventHandler, readCompletion,
        Semaphore.give, hst]
  · by_cases hst : status = ESP_GATT_OK <;>
      simp [deliver, BLERemoteDescriptor.gattClientEventHandler, readCompletion,
        Semaphore.give, hst]

/-! ## Properties -/

/-- C1: when the client is connected, the `take` of `readValue()` returns (in state
`t`), the transport accepts the read request (`ESP_OK`) and the handler then
receives, possibly after events that are not for this read, a read-completion
event tagged with the descriptor's handle carrying payload `B`, then
`readValue()` returns exactly `B` for status `ESP_GATT_OK` and the empty sequence
for every other status; the value is stored in `m_value`, the semaphore ends
free, and the calls made are the `take`, the read request, one `give` by the
handler and the `wait`. -/
theorem readValue_returns_delivered_value
    (client : BLEClient) (events pre rest : List GattcEvent) (s t : Sys)
    (gattc_if conn_id : Nat) (status : esp_gatt_status_t) (B : List UInt8)
    (w : gattc_write_evt_param)
    (hconn : client.isConnected = true)
    (htake : suspend events s =
      (t, pre ++ readCompletion gattc_if conn_id s.desc.getHandle status B w :: rest))
    (hfree : t.desc.m_semaphoreReadDescrEvt.taken = false)
    (hpre : ∀ e ∈ pre, e.isReadCompletionFor s.desc.getHandle = false) :
    (BLERemoteDescriptor.readValue client ESP_OK events s).outcome
        = .returned (if status = ESP_GATT_OK then B else []) ∧
    (BLERemoteDescriptor.readValue client ESP_OK events s).sys.desc
        = { t.desc with
            m_value := if status = ESP_GATT_OK then B else []
            m_semaphoreReadDescrEvt := { taken := false } } ∧
    (BLERemoteDescriptor.readValue client ESP_OK events s).sys.calls
        = t.calls ++
          [Call.semaphoreTake "readValue",
           Call.esp_ble_gattc_read_char_descr client.getGattcIf client.getConnId
             s.desc.getHandle .ESP_GATT_AUTH_REQ_NONE,
           Call.semaphoreGive,
           Call.semaphoreWait "readValue"] ∧
    (BLERemoteDescriptor.readValue client ESP_OK events s).pending = rest := by
  have hh : t.desc.getHandle = s.desc.getHandle := by
    have := suspend_getHandle events s
    rw [htake] at this
    exact this
  have hi : (issued client t).desc.getHandle = s.desc.getHandle := hh
  have hrun := readValue_after_take client events _ s t hconn htake hfree
  rw [suspend_skip pre _ (issued client t) rfl (by rw [hi]; exact hpre), ← hi,
    suspend_readCompletion gattc_if conn_id status B w rest (issued client t) rfl] at hrun
  rw [hrun]
  simp [issued, ← hh]

/-- C2: a read-completion event tagged with a handle different from the
descriptor's leaves the descriptor (its stored value and its semaphore included)
and the call log unchanged, for every status and payload: nothing is stored and
the semaphore is not given. -/
theorem handler_ignores_other_handle (gattc_if : Nat) (evtParam : esp_ble_gattc_cb_param_t)
    (s : Sys) (hne : evtParam.read.handle ≠ s.desc.getHandle) :
    BLERemoteDescriptor.gattClientEventHandler .ESP_GATTC_READ_DESCR_EVT gattc_if evtParam s
      = s := by
  simp [BLERemoteDescriptor.gattClientEventHandler, hne]

/-- C3: when the client reports `isConnected() == false`, `readValue()` and
`writeValue(data, length, response)` both throw `BLEDisconnectedException` and
leave the descriptor and the call log as they were: no transport request, no
semaphore call, no event consumed, stored value unchanged. -/
theorem disconnected_fails_before_any_effect (client : BLEClient) (errRc : esp_err_t)
    (events : List GattcEvent) (data : List UInt8) (length : Nat) (response : Bool) (s : Sys)
    (hdis : client.isConnected = false) :
    (BLERemoteDescriptor.readValue client errRc events s).outcome
        = .threw .BLEDisconnectedException ∧
    (BLERemoteDescriptor.readValue client errRc events s).sys = s ∧
    (BLERemoteDescriptor.readValue client errRc events s).pending = events ∧
    BLERemoteDescriptor.writeValue client errRc data length response s
        = (.threw .BLEDisconnectedException, s) := by
  simp [BLERemoteDescriptor.readValue, BLERemoteDescriptor.writeValue, hdis]

theorem writeValue_connected (client : BLEClient) (errRc : esp_err_t)
    (data : List UInt8) (length : Nat) (response : Bool) (s : Sys)
    (hconn : client.isConnected = true) :
    BLERemoteDescriptor.writeValue client errRc data length response s
        = (.returned (),
            { desc := s.desc
              calls := s.calls ++
                [Call.esp_ble_gattc_write_char_descr client.getGattcIf client.getConnId
                  s.desc.getHandle (length % 65536) data .ESP_GATT_WRITE_TYPE_NO_RSP
                  .ESP_GATT_AUTH_REQ_NONE] }) := by
  simp [BLERemoteDescriptor.writeValue, hconn]

/-- C7 as stated fails: `writeValue(data, 65538, true)` on the connected descriptor
with handle 42 issues a write request whose length is 2, not the given 65538. -/
theorem writeValue_long_length_is_narrowed :
    (BLERemoteDescriptor.writeValue exampleClient ESP_OK (List.replicate 65538 0xAB) 65538
        true exampleSys).2.calls
      = [Call.esp_ble_gattc_write_char_descr 3 0 42 2 (List.replicate 65538 0xAB)
          .ESP_GATT_WRITE_TYPE_NO_RSP .ESP_GATT_AUTH_REQ_NONE] ∧
    (BLERemoteDescriptor.writeValue exampleClient ESP_OK (List.replicate 65538 0xAB) 65538
        true exampleSys).2.calls
      ≠ [Call.esp_ble_gattc_write_char_descr 3 0 42 65538 (List.replicate 65538 0xAB)
          .ESP_GATT_WRITE_TYPE_NO_RSP .ESP_GATT_AUTH_REQ_NONE] := by
  rw [writeValue_connected exampleClient ESP_OK _ 65538 true exampleSys rfl]
  constructor
  · rfl
  · intro h
    have hcall := (List.cons.inj h).1
    injection hcall with _ _ _ hlen
    exact absurd hlen (by decide)

/-- C7 amended: for a connected client, `writeValue(data, length, response)`
returns having issued exactly one transport write request, addressed to the
descriptor's handle, in mode `ESP_GATT_WRITE_TYPE_NO_RSP`, carrying the buffer
`data` and the length `length % 65536`, which is the given `length` whenever
`length < 65536`; the descriptor (stored value and semaphore) is unchanged, no
semaphore call is made, and neither the result of the transport call nor the
`response` flag makes a difference. -/
theorem writeValue_issues_one_narrowed_no_rsp_request (client : BLEClient)
    (errRc : esp_err_t) (data : List UInt8) (length : Nat) (response : Bool) (s : Sys)
    (hconn : client.isConnected = true) :
    BLERemoteDescriptor.writeValue client errRc data length response s
        = (.returned (),
            { desc := s.desc
              calls := s.calls ++
                [Call.esp_ble_gattc_write_char_descr client.getGattcIf client.getConnId
                  s.desc.getHandle (length % 65536) data .ESP_GATT_WRITE_TYPE_NO_RSP
                  .ESP_GATT_AUTH_REQ_NONE] }) ∧
    (length < 65536 →
      BLERemoteDescriptor.writeValue client errRc data length response s
        = (.returned (),
            { desc := s.desc
              calls := s.calls ++
                [Call.esp_ble_gattc_write_char_descr client.getGattcIf client.getConnId
                  s.desc.getHandle length data .ESP_GATT_WRITE_TYPE_NO_RSP
                  .ESP_GATT_AUTH_REQ_NONE] })) ∧
    BLERemoteDescriptor.writeValue client errRc data length true s
        = BLERemoteDescriptor.writeValue client errRc data length false s := by
  refine ⟨writeValue_connected client errRc data length response s hconn, ?_, ?_⟩
  · intro hlt
    rw [writeValue_connected client errRc data length response s hconn, Nat.mod_eq_of_lt hlt]
  · rw [writeValue_connected client errRc data length true s hconn,
      writeValue_connected client errRc data length false s hconn]

/-- C8: an event of any kind other than read-completion (a write-completion event
with a matching or a non-matching handle, a disconnect event, any other kind)
leaves the descriptor and the call log unchanged: the stored value is not
updated and the semaphore is not given. -/
theorem handler_ignores_other_kinds (event : esp_gattc_cb_event_t) (gattc_if : Nat)
    (evtParam : esp_ble_gattc_cb_param_t) (s : Sys)
    (hkind : event ≠ .ESP_GATTC_READ_DESCR_EVT) :
    BLERemoteDescriptor.gattClientEventHandler event gattc_if evtParam s = s := by
  cases event <;> simp_all [BLERemoteDescriptor.gattClientEventHandler]

theorem andThen_of_returned (r : Run (List UInt8)) (k : List UInt8 → Outcome Nat)
    (v : List UInt8) (h : r.outcome = .returned v) : (r.andThen k).outcome = k v := by
  simp [Run.andThen, h]

theorem readValue_no_fault (client : BLEClient) (errRc : esp_err_t)
    (events : List GattcEvent) (s : Sys) (f : Fault) :
    (BLERemoteDescriptor.readValue client errRc events s).outcome ≠ .fault f := by
  unfold BLERemoteDescriptor.readValue
  dsimp only
  split_ifs <;> simp

theorem andThen_no_fault (r : Run (List UInt8)) (k : List UInt8 → Outcome Nat)
    (hr : ∀ f, r.outcome ≠ .fault f) (hk : ∀ v f, k v ≠ .fault f) (f : Fault) :
    (r.andThen k).outcome ≠ .fault f := by
  unfold Run.andThen
  split
  · exact hk _ f
  · simp
  · simp
  · next g hg => exact absurd hg (hr g)

theorem decodeUInt8_no_fault (v : List UInt8) (f : Fault) : decodeUInt8 v ≠ .fault f := by
  unfold decodeUInt8
  match v with
  | [] => simp
  | b0 :: _ => simp [loadByte, Outcome.ofLoad]

theorem decodeUInt16_no_fault (v : List UInt8) (f : Fault) : decodeUInt16 v ≠ .fault f := by
  unfold decodeUInt16
  match v with
  | [] => simp
  | [_] => simp
  | _ :: _ :: _ => simp [loadUInt16, loadByte, Outcome.ofLoad, bind, Except.bind, pure, Except.pure]

theorem decodeUInt32_no_fault (v : List UInt8) (f : Fault) : decodeUInt32 v ≠ .fault f := by
  unfold decodeUInt32
  match v with
  | [] => simp
  | [_] => simp
  | [_, _] => simp
  | [_, _, _] => simp
  | _ :: _ :: _ :: _ :: _ =>
    simp [loadUInt32, loadByte, Outcome.ofLoad, bind, Except.bind, pure, Except.pure]

/-- C5: when the inner `readValue()` returns the byte sequence `v`, `readUInt8()`
returns `v[0]` as an unsigned value below 256 if `|v| >= 1`, `readUInt16()`
returns `v[0] + 256 * v[1]` if `|v| >= 2`, and `readUInt32()` returns
`v[0] + 256 * v[1] + 65536 * v[2] + 16777216 * v[3]` if `|v| >= 4`, whatever
bytes follow; in particular the 16-bit decoding of `[0x01, 0x00]` is 1. -/
theorem readUInt_decodes_little_endian (client : BLEClient) (errRc : esp_err_t)
    (events : List GattcEvent) (s : Sys) (v : List UInt8)
    (hv : (BLERemoteDescriptor.readValue client errRc events s).outcome = .returned v) :
    (∀ h1 : 1 ≤ v.length,
      (BLERemoteDescriptor.readUInt8 client errRc events s).outcome
          = .returned v[0].toNat ∧ v[0].toNat < 256) ∧
    (∀ h2 : 2 ≤ v.length,
      (BLERemoteDescriptor.readUInt16 client errRc events s).outcome
          = .returned (v[0].toNat + 256 * v[1].toNat)) ∧
    (∀ h4 : 4 ≤ v.length,
      (BLERemoteDescriptor.readUInt32 client errRc events s).outcome
          = .returned (v[0].toNat + 256 * v[1].toNat + 65536 * v[2].toNat
              + 16777216 * v[3].toNat)) ∧
    decodeUInt16 [0x01, 0x00] = .returned 1 := by
  refine ⟨?_, ?_, ?_, rfl⟩
  · intro h1
    rw [BLERemoteDescriptor.readUInt8, andThen_of_returned _ _ v hv]
    match v, h1 with
    | b0 :: _, _ => exact ⟨by simp [decodeUInt8, loadByte, Outcome.ofLoad], b0.toNat_lt⟩
  · intro h2
    rw [BLERemoteDescriptor.readUInt16, andThen_of_returned _ _ v hv]
    match v, h2 with
    | _ :: _ :: _, _ =>
      simp [decodeUInt16, loadUInt16, loadByte, Outcome.ofLoad, bind, Except.bind, pure,
        Except.pure]
  · intro h4
    rw [BLERemoteDescriptor.readUInt32, andThen_of_returned _ _ v hv]
    match v, h4 with
    | _ :: _ :: _ :: _ :: _, _ =>
      simp [decodeUInt32, loadUInt32, loadByte, Outcome.ofLoad, bind, Except.bind, pure,
        Except.pure]

/-- C6: when the inner `readValue()` returns the byte sequence `v`, `readUInt8()`
returns 0 if `|v| < 1`, `readUInt16()` returns 0 if `|v| < 2` and `readUInt32()`
returns 0 if `|v| < 4`; and no run of any of the three decoders, on any input,
ends in a read outside the bytes of the sequence. -/
theorem readUInt_short_is_zero_and_in_bounds (client : BLEClient) (errRc : esp_err_t)
    (events : List GattcEvent) (s : Sys) :
    (∀ v, (BLERemoteDescriptor.readValue client errRc events s).outcome = .returned v →
      (v.length < 1 →
        (BLERemoteDescriptor.readUInt8 client errRc events s).outcome = .returned 0) ∧
      (v.length < 2 →
        (BLERemoteDescriptor.readUInt16 client errRc events s).outcome = .returned 0) ∧
      (v.length < 4 →
        (BLERemoteDescriptor.readUInt32 client errRc events s).outcome = .returned 0)) ∧
    (∀ f, (BLERemoteDescriptor.readUInt8 client errRc events s).outcome ≠ .fault f) ∧
    (∀ f, (BLERemoteDescriptor.readUInt16 client errRc events s).outcome ≠ .fault f) ∧
    (∀ f, (BLERemoteDescriptor.readUInt32 client errRc events s).outcome ≠ .fault f) ∧
    (∀ v f, decodeUInt8 v ≠ .fault f ∧ decodeUInt16 v ≠ .fault f ∧
      decodeUInt32 v ≠ .fault f) := by
  refine ⟨?_, ?_, ?_, ?_, ?_⟩
  · intro v hv
    refine ⟨?_, ?_, ?_⟩
    · intro hlt
      rw [BLERemoteDescriptor.readUInt8, andThen_of_returned _ _ v hv]
      simp [decodeUInt8]; omega
    · intro hlt
      rw [BLERemoteDescriptor.readUInt16, andThen_of_returned _ _ v hv]
      simp [decodeUInt16]; omega
    · intro hlt
      rw [BLERemoteDescriptor.readUInt32, andThen_of_returned _ _ v hv]
      simp [decodeUInt32]; omega
  · exact andThen_no_fault _ _ (readValue_no_fault client errRc events s) decodeUInt8_no_fault
  · exact andThen_no_fault _ _ (readValue_no_fault client errRc events s) decodeUInt16_no_fault
  · exact andThen_no_fault _ _ (readValue_no_fault client errRc events s) decodeUInt32_no_fault
  · exact fun v f =>
      ⟨decodeUInt8_no_fault v f, decodeUInt16_no_fault v f, decodeUInt32_no_fault v f⟩

theorem sameIdentity_refl (a : BLERemoteDescriptor) : sameIdentity a a := ⟨rfl, rfl, rfl⟩

theorem sameIdentity_trans {a b c : BLERemoteDescriptor} (h1 : sameIdentity a b)
    (h2 : sameIdentity b c) : sameIdentity a c :=
  ⟨h1.1.trans h2.1, h1.2.1.trans h2.2.1, h1.2.2.trans h2.2.2⟩

theorem handler_sameIdentity (event : esp_gattc_cb_event_t) (g : Nat)
    (p : esp_ble_gattc_cb_param_t) (s : Sys) :
    sameIdentity (BLERemoteDescriptor.gattClientEventHandler event g p s).desc s.desc := by
  unfold BLERemoteDescriptor.gattClientEventHandler
  cases event <;> simp only [ite_self]
  · split
    · exact sameIdentity_refl _
    · split <;> exact ⟨rfl, rfl, rfl⟩
  all_goals exact sameIdentity_refl _

theorem suspend_sameIdentity (events : List GattcEvent) (s : Sys) :
    sameIdentity (suspend events s).1.desc s.desc := by
  induction events generalizing s with
  | nil => exact sameIdentity_refl _
  | cons e rest ih =>
    unfold suspend
    split
    · exact sameIdentity_trans (ih _) (handler_sameIdentity _ _ _ _)
    · exact sameIdentity_refl _

theorem readValue_sameIdentity (client : BLEClient) (errRc : esp_err_t)
    (events : List GattcEvent) (s : Sys) :
    sameIdentity (BLERemoteDescriptor.readValue client errRc events s).sys.desc s.desc := by
  have h1 := suspend_sameIdentity events s
  unfold BLERemoteDescriptor.readValue
  dsimp only
  split_ifs
  · exact sameIdentity_refl _
  · exact h1
  · exact h1
  · exact sameIdentity_trans (suspend_sameIdentity _ _) h1
  · exact sameIdentity_trans
      (sameIdentity_trans (b := (suspend (suspend events s).2 _).1.desc) ⟨rfl, rfl, rfl⟩
        (suspend_sameIdentity _ _)) h1

theorem andThen_sys (r : Run (List UInt8)) (k : List UInt8 → Outcome Nat) :
    (r.andThen k).sys = r.sys := by
  unfold Run.andThen
  split <;> rfl

theorem writeValue_sameIdentity (client : BLEClient) (errRc : esp_err_t) (data : List UInt8)
    (length : Nat) (response : Bool) (s : Sys) :
    sameIdentity (BLERemoteDescriptor.writeValue client errRc data length response s).2.desc
      s.desc := by
  unfold BLERemoteDescriptor.writeValue
  split_ifs <;> exact sameIdentity_refl _

theorem writeValueString_never_returns (fuel : Nat) (newValue : List UInt8)
    (response : Bool) (s : Sys) :
    BLERemoteDescriptor.writeValueString fuel newValue response s = (none, s) := by
  induction fuel generalizing newValue response with
  | zero => rfl
  | succ n ih =>
    unfold BLERemoteDescriptor.writeValueString
    exact ih _ _

theorem apply_sameIdentity (op : Op) (s : Sys) : sameIdentity (op.apply s).desc s.desc := by
  cases op with
  | readValue client errRc events => exact readValue_sameIdentity client errRc events s
  | readUInt8 client errRc events =>
    simp only [Op.apply, BLERemoteDescriptor.readUInt8, andThen_sys]
    exact readValue_sameIdentity client errRc events s
  | readUInt16 client errRc events =>
    simp only [Op.apply, BLERemoteDescriptor.readUInt16, andThen_sys]
    exact readValue_sameIdentity client errRc events s
  | readUInt32 client errRc events =>
    simp only [Op.apply, BLERemoteDescriptor.readUInt32, andThen_sys]
    exact readValue_sameIdentity client errRc events s
  | writeValue client errRc data length response =>
    exact writeValue_sameIdentity client errRc data length response s
  | writeValueString fuel newValue response =>
    simp only [Op.apply, writeValueString_never_returns]
    exact sameIdentity_refl _
  | writeValueByte client errRc newValue response =>
    exact writeValue_sameIdentity client errRc [newValue] 1 response s
  | toString => exact sameIdentity_refl _
  | gattClientEventHandler event g p => exact handler_sameIdentity event g p s

theorem runOps_sameIdentity (ops : List Op) (s : Sys) :
    sameIdentity (runOps ops s).desc s.desc := by
  induction ops generalizing s with
  | nil => exact sameIdentity_refl _
  | cons op rest ih =>
    exact sameIdentity_trans (ih (op.apply s)) (apply_sameIdentity op s)

/-- C10: for a descriptor constructed with handle `h`, UUID `u` and owning
characteristic `p`, after every finite sequence of operations (`readValue`,
`readUInt8/16/32`, the three `writeValue` overloads, `toString` and
`gattClientEventHandler`, with any inputs, the string overload followed to any
depth of its recursion) `getHandle()` still returns `h`,
`getUUID()` still returns `u` and `getRemoteCharacteristic()` still returns `p`. -/
theorem identity_preserved_by_every_operation (h : Nat) (u : BLEUUID) (p : Nat)
    (ops : List Op) :
    (runOps ops { desc := BLERemoteDescriptor.new h u p, calls := [] }).desc.getHandle = h ∧
    (runOps ops { desc := BLERemoteDescriptor.new h u p, calls := [] }).desc.getUUID = u ∧
    (runOps ops { desc := BLERemoteDescriptor.new h u p, calls := [] }).desc.getRemoteCharacteristic
      = p :=
  runOps_sameIdentity ops { desc := BLERemoteDescriptor.new h u p, calls := [] }

theorem suspend_all_ignored (post : List GattcEvent) (u : Sys)
    (htaken : u.desc.m_semaphoreReadDescrEvt.taken = true)
    (hpost : ∀ e ∈ post, e.isReadCompletionFor u.desc.getHandle = false) :
    suspend post u = (u, []) := by
  have h := suspend_skip post [] u htaken hpost
  rw [List.append_nil] at h
  rw [h]
  rfl

/-- C9 as stated fails: with a read outstanding on the descriptor with handle 42, a
connection-loss event (here three of them) does not resolve the call: no
exception is raised, the semaphore is still taken, every event has been
consumed and the caller is still suspended in `wait`. -/
theorem disconnect_does_not_release_reader :
    (BLERemoteDescriptor.readValue exampleClient ESP_OK
        [exampleDisconnect, exampleDisconnect, exampleDisconnect] exampleSys).outcome
      = .blocked .inWait ∧
    (BLERemoteDescriptor.readValue exampleClient ESP_OK
        [exampleDisconnect, exampleDisconnect, exampleDisconnect]
        exampleSys).sys.desc.m_semaphoreReadDescrEvt.taken = true ∧
    (BLERemoteDescriptor.readValue exampleClient ESP_OK
        [exampleDisconnect, exampleDisconnect, exampleDisconnect] exampleSys).pending = [] := by
  decide

/-- C9 amended: once `readValue()` has taken the semaphore (in state `t`) and the
transport has accepted the read request, every sequence of events that contains
no read-completion event for the descriptor's handle (connection-loss events are
such events) leaves the caller suspended in `wait`, with the descriptor and the
call log exactly as they were when the request was issued. -/
theorem reader_stays_blocked_without_read_completion
    (client : BLEClient) (events post : List GattcEvent) (s t : Sys)
    (hconn : client.isConnected = true)
    (htake : suspend events s = (t, post))
    (hfree : t.desc.m_semaphoreReadDescrEvt.taken = false)
    (hpost : ∀ e ∈ post, e.isReadCompletionFor s.desc.getHandle = false) :
    (BLERemoteDescriptor.readValue client ESP_OK events s).outcome = .blocked .inWait ∧
    (BLERemoteDescriptor.readValue client ESP_OK events s).sys = issued client t ∧
    (BLERemoteDescriptor.readValue client ESP_OK events s).pending = [] ∧
    (∀ (g h : Nat) (p : esp_ble_gattc_cb_param_t),
      GattcEvent.isReadCompletionFor
        { event := .ESP_GATTC_DISCONNECT_EVT, gattc_if := g, evtParam := p } h = false) := by
  have hh : (issued client t).desc.getHandle = s.desc.getHandle := by
    have := suspend_getHandle events s
    rw [htake] at this
    exact this
  have hrun := readValue_after_take client events _ s t hconn htake hfree
  rw [suspend_all_ignored post (issued client t) rfl (by rw [hh]; exact hpost)] at hrun
  rw [hrun]
  refine ⟨?_, ?_, ?_, ?_⟩
  · simp [issued]
  · simp [issued]
  · simp [issued]
  · intro g h p
    simp [GattcEvent.isReadCompletionFor]

/-- C4 fails on the code: for the connected descriptor with handle 42 and a free
semaphore, when the transport rejects the read request (`ESP_FAIL`),
`readValue()` returns the empty sequence without waiting, but the semaphore it
took is still taken afterwards (no `give` was made), and a following
`readValue()` stays suspended in `take` without issuing a request. -/
theorem rejected_read_leaves_semaphore_taken :
    (BLERemoteDescriptor.readValue exampleClient ESP_FAIL [] exampleSys).outcome
      = .returned [] ∧
    exampleSys.desc.m_semaphoreReadDescrEvt.taken = false ∧
    (BLERemoteDescriptor.readValue exampleClient ESP_FAIL []
        exampleSys).sys.desc.m_semaphoreReadDescrEvt.taken = true ∧
    (BLERemoteDescriptor.readValue exampleClient ESP_FAIL [] exampleSys).sys.calls
      = [Call.semaphoreTake "readValue",
         Call.esp_ble_gattc_read_char_descr 3 0 42 .ESP_GATT_AUTH_REQ_NONE] ∧
    (BLERemoteDescriptor.readValue exampleClient ESP_OK []
        (BLERemoteDescriptor.readValue exampleClient ESP_FAIL [] exampleSys).sys).outcome
      = .blocked .inTake ∧
    (BLERemoteDescriptor.readValue exampleClient ESP_OK []
        (BLERemoteDescriptor.readValue exampleClient ESP_FAIL [] exampleSys).sys).sys
      = (BLERemoteDescriptor.readValue exampleClient ESP_FAIL [] exampleSys).sys := by
  decide

/-! ## The properties at concrete inputs -/

/-- C1 at a concrete input: descriptor 42, a write-completion event and then the
read-completion event carrying `[0x01, 0x00]` with status `ESP_GATT_OK`. -/
theorem readValue_returns_delivered_value_witness :
    (BLERemoteDescriptor.readValue exampleClient ESP_OK
        [exampleWriteDone, readCompletion 3 0 42 ESP_GATT_OK [0x01, 0x00] ⟨0, 0, 42⟩]
        exampleSys).outcome = .returned [0x01, 0x00] :=
  (readValue_returns_delivered_value exampleClient
    [exampleWriteDone, readCompletion 3 0 42 ESP_GATT_OK [0x01, 0x00] ⟨0, 0, 42⟩]
    [exampleWriteDone] [] exampleSys exampleSys 3 0 ESP_GATT_OK [0x01, 0x00] ⟨0, 0, 42⟩
    rfl rfl rfl (by decide)).1

/-- C2 at a concrete input: a read-completion event for handle 43 given to descriptor 42. -/
theorem handler_ignores_other_handle_witness :
    BLERemoteDescriptor.gattClientEventHandler .ESP_GATTC_READ_DESCR_EVT 3
      (exampleParam 43 0) exampleSys = exampleSys :=
  handler_ignores_other_handle 3 (exampleParam 43 0) exampleSys (by decide)

/-- C3 at a concrete input: descriptor 42 on a client whose connection was lost. -/
theorem disconnected_fails_before_any_effect_witness :
    (BLERemoteDescriptor.readValue exampleClientDown ESP_OK [] exampleSys).outcome
        = .threw .BLEDisconnectedException ∧
    (BLERemoteDescriptor.readValue exampleClientDown ESP_OK [] exampleSys).sys = exampleSys ∧
    (BLERemoteDescriptor.readValue exampleClientDown ESP_OK [] exampleSys).pending = [] ∧
    BLERemoteDescriptor.writeValue exampleClientDown ESP_OK [0x01, 0x00] 2 true exampleSys
        = (.threw .BLEDisconnectedException, exampleSys) :=
  disconnected_fails_before_any_effect exampleClientDown ESP_OK [] [0x01, 0x00] 2 true
    exampleSys rfl

/-- C5 at a concrete input: the read of descriptor 42 completes with `[0x01, 0x00]`
and `readUInt16()` returns 1. -/
theorem readUInt_decodes_little_endian_witness :
    (BLERemoteDescriptor.readUInt16 exampleClient ESP_OK
        [readCompletion 3 0 42 ESP_GATT_OK [0x01, 0x00] ⟨0, 0, 42⟩] exampleSys).outcome
      = .returned 1 :=
  (readUInt_decodes_little_endian exampleClient ESP_OK
    [readCompletion 3 0 42 ESP_GATT_OK [0x01, 0x00] ⟨0, 0, 42⟩] exampleSys [0x01, 0x00]
    rfl).2.1 (by decide)

/-- C6 at a concrete input: the read of descriptor 42 completes with the one byte
`[0x05]` and `readUInt16()` returns 0. -/
theorem readUInt_short_is_zero_and_in_bounds_witness :
    (BLERemoteDescriptor.readUInt16 exampleClient ESP_OK
        [readCompletion 3 0 42 ESP_GATT_OK [0x05] ⟨0, 0, 42⟩] exampleSys).outcome
      = .returned 0 :=
  ((readUInt_short_is_zero_and_in_bounds exampleClient ESP_OK
    [readCompletion 3 0 42 ESP_GATT_OK [0x05] ⟨0, 0, 42⟩] exampleSys).1 [0x05] rfl).2.1
    (by decide)

/-- C7 amended at a concrete input: `writeValue([0x01, 0x00], 2, true)` on
descriptor 42 with a transport that rejects the request. -/
theorem writeValue_issues_one_narrowed_no_rsp_request_witness :
    BLERemoteDescriptor.writeValue exampleClient ESP_FAIL [0x01, 0x00] 2 true exampleSys
      = (.returned (),
          { desc := exampleSys.desc
            calls := exampleSys.calls ++
              [Call.esp_ble_gattc_write_char_descr exampleClient.getGattcIf
                exampleClient.getConnId exampleSys.desc.getHandle 2 [0x01, 0x00]
                .ESP_GATT_WRITE_TYPE_NO_RSP .ESP_GATT_AUTH_REQ_NONE] }) :=
  (writeValue_issues_one_narrowed_no_rsp_request exampleClient ESP_FAIL [0x01, 0x00] 2 true
    exampleSys rfl).2.1 (by decide)

/-- C8 at a concrete input: the write-completion event for handle 42 given to
descriptor 42. -/
theorem handler_ignores_other_kinds_witness :
    BLERemoteDescriptor.gattClientEventHandler .ESP_GATTC_WRITE_DESCR_EVT 3
      (exampleParam 0 42) exampleSys = exampleSys :=
  handler_ignores_other_kinds .ESP_GATTC_WRITE_DESCR_EVT 3 (exampleParam 0 42) exampleSys
    (by decide)

/-- C9 amended at a concrete input: descriptor 42 with a read outstanding receives
a connection-loss event and the caller stays suspended in `wait`. -/
theorem reader_stays_blocked_without_read_completion_witness :
    (BLERemoteDescriptor.readValue exampleClient ESP_OK [exampleDisconnect]
        exampleSys).outcome = .blocked .inWait :=
  (reader_stays_blocked_without_read_completion exampleClient [exampleDisconnect]
    [exampleDisconnect] exampleSys exampleSys rfl rfl rfl (by decide)).1
